import Mathlib

/-!
# Verification of the section-builder authentication core

Shallow embedding of the authentication and request-integrity layer of the
section-builder server:

* `server/auth.py` — password hashing (SHA-512 with a fixed salt), JWT
  issuance/validation, password-strength validation;
* `server/csrf.py` — double-submit-cookie CSRF middleware;
* `server/routes/auth_routes.py` — login state machine, session guards,
  change-password;
* `server/routes/system_routes.py` — administrative user update.

Machine integers are modelled as `Nat` with explicit `% 2^64` where the
source's digest arithmetic wraps.  Timestamps are `Nat` seconds; calendar
dates are ISO `String`s (lexicographic order on well-formed ISO dates agrees
with calendar order, which is how the comparisons in the source behave on
`date` values).  Fallible handlers return an explicit result type.
-/

namespace SectionBuilder

/-! ## Password policy (`sys_password_policy` row / hard-coded default) -/

/-- One row of `sys_password_policy`, as consumed through `dict.get` in
`auth.py` and `auth_routes.py`. -/
structure PasswordPolicy where
  min_length : Nat
  require_uppercase : Bool
  require_lowercase : Bool
  require_number : Bool
  require_special : Bool
  max_login_attempts : Nat
  lockout_duration_min : Nat
  password_expire_days : Nat
  password_history_count : Nat
deriving Repr, DecidableEq

/-- The hard-coded fallback policy returned by `get_password_policy` when no
active `sys_password_policy` row exists. -/
def defaultPolicy : PasswordPolicy :=
  { min_length := 8
    require_uppercase := true
    require_lowercase := true
    require_number := true
    require_special := false
    max_login_attempts := 5
    lockout_duration_min := 30
    password_expire_days := 90
    password_history_count := 3 }

/-- `get_password_policy` (`auth_routes.py`): the active policy row if one
exists, otherwise the hard-coded default. -/
def get_password_policy (active : Option PasswordPolicy) : PasswordPolicy :=
  active.getD defaultPolicy

/-! ## `validate_password_strength` (`auth.py`)

Python's `str.isupper`/`islower`/`isdigit` are Unicode-aware; passwords are
modelled over their ASCII behaviour (`Char.isUpper` etc.), which is the
range the policy messages and the spec's examples live in. -/

/-- The fixed special-character set of `validate_password_strength`. -/
def special_chars : String := "!@#$%^&*()_+-=[]\x7b\x7d|;:\x27,.<>?/`~"

/-- `validate_password_strength(password, policy)`: sequential checks, each
returning at the first violated rule. -/
def validate_password_strength (password : String) (policy : PasswordPolicy) :
    Bool × String :=
  if password.length < policy.min_length then
    (false, "密碼長度至少 " ++ toString policy.min_length ++ " 個字元")
  else if policy.require_uppercase && !password.data.any Char.isUpper then
    (false, "密碼必須包含大寫字母")
  else if policy.require_lowercase && !password.data.any Char.isLower then
    (false, "密碼必須包含小寫字母")
  else if policy.require_number && !password.data.any Char.isDigit then
    (false, "密碼必須包含數字")
  else if policy.require_special && !password.data.any (fun c => special_chars.data.contains c) then
    (false, "密碼必須包含特殊符號")
  else
    (true, "")

/-! ## SHA-512 (`hashlib.sha512`) and the password hasher (`auth.py`)

`hash_password` surrounds the password with the fixed module salt and
digests the UTF-8 bytes with SHA-512, returning the lowercase hexadecimal
digest.  SHA-512 is embedded from FIPS 180-4: 64-bit words are `Nat`s
reduced `% 2^64`; the round and initial constants are computed, as the
standard defines them, from the fractional parts of the cube/square roots
of the first primes. -/

/-- 64-bit truncation. -/
def mask64 (x : Nat) : Nat := x % 2 ^ 64

/-- Right rotation of a 64-bit word. -/
def rotr64 (n x : Nat) : Nat := mask64 (x >>> n ||| x <<< (64 - n))

/-- Three-way xor. -/
def xor3 (a b c : Nat) : Nat := Nat.xor (Nat.xor a b) c

/-- FIPS 180-4 `Σ0`. -/
def bigSigma0 (x : Nat) : Nat := xor3 (rotr64 28 x) (rotr64 34 x) (rotr64 39 x)

/-- FIPS 180-4 `Σ1`. -/
def bigSigma1 (x : Nat) : Nat := xor3 (rotr64 14 x) (rotr64 18 x) (rotr64 41 x)

/-- FIPS 180-4 `σ0`. -/
def smallSigma0 (x : Nat) : Nat := xor3 (rotr64 1 x) (rotr64 8 x) (x >>> 7)

/-- FIPS 180-4 `σ1`. -/
def smallSigma1 (x : Nat) : Nat := xor3 (rotr64 19 x) (rotr64 61 x) (x >>> 6)

/-- FIPS 180-4 `Ch`: bitwise choose. -/
def chooseF (e f g : Nat) : Nat :=
  Nat.xor (Nat.land e f) (Nat.land (Nat.xor e (2 ^ 64 - 1)) g)

/-- FIPS 180-4 `Maj`: bitwise majority. -/
def majF (a b c : Nat) : Nat :=
  xor3 (Nat.land a b) (Nat.land a c) (Nat.land b c)

/-- Bisection step for the integer cube root: maintains `lo^3 ≤ n < hi^3`. -/
def icbrtGo (n : Nat) : Nat → Nat → Nat → Nat
  | 0, lo, _ => lo
  | fuel + 1, lo, hi =>
    if hi ≤ lo + 1 then lo
    else
      let mid := (lo + hi) / 2
      if mid ^ 3 ≤ n then icbrtGo n fuel mid hi else icbrtGo n fuel lo mid

/-- Integer cube root (exact floor for the inputs used here, which are below
`2^240`). -/
def icbrt (n : Nat) : Nat := icbrtGo n 90 0 (2 ^ 80)

/-- The first eighty primes, whose cube roots yield the SHA-512 round
constants. -/
def firstPrimes80 : List Nat :=
  [2, 3, 5, 7, 11, 13, 17, 19, 23, 29, 31, 37, 41, 43, 47, 53, 59, 61, 67,
   71, 73, 79, 83, 89, 97, 101, 103, 107, 109, 113, 127, 131, 137, 139, 149,
   151, 157, 163, 167, 173, 179, 181, 191, 193, 197, 199, 211, 223, 227, 229,
   233, 239, 241, 251, 257, 263, 269, 271, 277, 281, 283, 293, 307, 311, 313,
   317, 331, 337, 347, 349, 353, 359, 367, 373, 379, 383, 389, 397, 401, 409]

/-- SHA-512 round constants: first 64 bits of the fractional parts of the
cube roots of the first eighty primes. -/
def sha512K : List Nat :=
  firstPrimes80.map fun p => mask64 (icbrt (p * 2 ^ 192))

/-- SHA-512 initial hash value: first 64 bits of the fractional parts of the
square roots of the first eight primes. -/
def sha512H0 : List Nat :=
  [2, 3, 5, 7, 11, 13, 17, 19].map fun p => mask64 (Nat.sqrt (p * 2 ^ 128))

/-- Big-endian byte rendering of `n` on `k` bytes. -/
def toBEBytes : Nat → Nat → List Nat
  | 0, _ => []
  | k + 1, n => toBEBytes k (n / 256) ++ [n % 256]

/-- FIPS 180-4 padding: append `0x80`, zero bytes to 112 mod 128, then the
bit length on sixteen big-endian bytes. -/
def sha512Pad (msg : List Nat) : List Nat :=
  let L := msg.length
  let zeros := (240 - (L + 1) % 128) % 128
  msg ++ [0x80] ++ List.replicate zeros 0 ++ toBEBytes 16 (8 * L)

/-- Group the padded byte stream into big-endian 64-bit words. -/
def bytesToWords64 : List Nat → List Nat
  | b0 :: b1 :: b2 :: b3 :: b4 :: b5 :: b6 :: b7 :: rest =>
    [b0, b1, b2, b3, b4, b5, b6, b7].foldl (fun a b => a * 256 + b) 0
      :: bytesToWords64 rest
  | _ => []

/-- Group the word stream into 16-word message blocks. -/
def words64ToBlocks : List Nat → List (List Nat)
  | w0 :: w1 :: w2 :: w3 :: w4 :: w5 :: w6 :: w7 :: w8 :: w9 :: w10 :: w11
      :: w12 :: w13 :: w14 :: w15 :: rest =>
    [w0, w1, w2, w3, w4, w5, w6, w7, w8, w9, w10, w11, w12, w13, w14, w15]
      :: words64ToBlocks rest
  | _ => []

/-- One message-schedule word, computed over the newest-first prefix of the
schedule: `W(t) = σ1 W(t-2) + W(t-7) + σ0 W(t-15) + W(t-16) mod 2^64`. -/
def scheduleStep (acc : List Nat) : Nat :=
  mask64 (smallSigma1 (acc.getD 1 0) + acc.getD 6 0
    + smallSigma0 (acc.getD 14 0) + acc.getD 15 0)

/-- Extend the newest-first schedule by `t` words, then restore order. -/
def buildSchedule : Nat → List Nat → List Nat
  | 0, acc => acc.reverse
  | t + 1, acc => buildSchedule t (scheduleStep acc :: acc)

/-- The eighty-word message schedule of one block. -/
def fullSchedule (block : List Nat) : List Nat := buildSchedule 64 block.reverse

/-- One SHA-512 round on the working variables `[a,b,c,d,e,f,g,h]`. -/
def sha512Round (st : List Nat) (kt wt : Nat) : List Nat :=
  match st with
  | [a, b, c, d, e, f, g, h] =>
    let t1 := mask64 (h + bigSigma1 e + chooseF e f g + kt + wt)
    let t2 := mask64 (bigSigma0 a + majF a b c)
    [mask64 (t1 + t2), a, b, c, mask64 (d + t1), e, f, g]
  | _ => st

/-- Compress one 16-word block into the running hash value. -/
def sha512Compress (st : List Nat) (block : List Nat) : List Nat :=
  let final := ((sha512K.zip (fullSchedule block)).foldl
    (fun s p => sha512Round s p.1 p.2) st)
  (st.zip final).map fun p => mask64 (p.1 + p.2)

/-- SHA-512 of a byte string, as the eight 64-bit words of the digest. -/
def sha512Words (msg : List Nat) : List Nat :=
  (words64ToBlocks (bytesToWords64 (sha512Pad msg))).foldl sha512Compress sha512H0

/-- Little-endian base-`2^64` packing of a word list, used to view a digest
as a single bounded number. -/
def packWords : List Nat → Nat
  | [] => 0
  | w :: ws => w + 2 ^ 64 * packWords ws

/-- Lowercase hexadecimal digit. -/
def hexChar (n : Nat) : Char :=
  if n < 10 then Char.ofNat (48 + n) else Char.ofNat (87 + n)

/-- Sixteen hex digits of a 64-bit word, most significant first. -/
def hexWord16 (w : Nat) : List Char :=
  (List.range 16).map fun i => hexChar (w >>> (60 - 4 * i) % 16)

/-- `hexdigest()` over the digest words. -/
def wordsToHex (ws : List Nat) : String :=
  String.mk (ws.foldr (fun w acc => hexWord16 w ++ acc) [])

/-- UTF-8 encoding of one scalar value (`str.encode('utf-8')`). -/
def utf8EncodeChar (c : Char) : List Nat :=
  let n := c.toNat
  if n < 0x80 then [n]
  else if n < 0x800 then [0xC0 + n / 64, 0x80 + n % 64]
  else if n < 0x10000 then
    [0xE0 + n / 4096, 0x80 + n / 64 % 64, 0x80 + n % 64]
  else
    [0xF0 + n / 262144, 0x80 + n / 4096 % 64, 0x80 + n / 64 % 64, 0x80 + n % 64]

/-- UTF-8 encoding of a string. -/
def utf8Encode (s : String) : List Nat := (s.data.map utf8EncodeChar).flatten

/-- The process-wide fixed salt (`PASSWORD_SALT` default). -/
def PASSWORD_SALT : String := "section-builder-salt-2026"

/-- `hash_password(password)`: SHA-512 hexdigest of
`salt ++ password ++ salt`. -/
def hash_password (password : String) : String :=
  wordsToHex (sha512Words (utf8Encode (PASSWORD_SALT ++ password ++ PASSWORD_SALT)))

/-- `verify_password(password, hashed)`: recompute and compare; the
source's `try/except` cannot fire in this total model, and any mismatch is
`false`. -/
def verify_password (password hashed : String) : Bool :=
  hash_password password == hashed

/-! ## JWT token codec (`auth.py`)

`create_access_token` / `decode_access_token` sign and verify a claims
payload with the module-wide `JWT_SECRET_KEY` and a fixed algorithm.  The
token is modelled as its signed payload together with the key that produced
the signature; `decode` checks that the signing key matches the verifying
key (signature verification) and that the expiry has not passed, returning
`none` on either failure exactly as the source returns `None` on `JWTError`. -/

/-- Minutes of validity for an access token (`JWT_EXPIRE_MINUTES = 60 * 8`). -/
def JWT_EXPIRE_MINUTES : Nat := 60 * 8

/-- The claims placed in a token by `create_access_token`. -/
structure JwtClaims where
  sub : String
  roles : List String
  exp : Nat
  iat : Nat
deriving Repr, DecidableEq

/-- A signed token: the claims plus the secret that signed them. -/
structure JwtToken where
  claims : JwtClaims
  signedWith : String
deriving Repr, DecidableEq

/-- `create_access_token(user_id, roles, expires_delta)`: expiry is `now`
plus the given delta (seconds) or the default 8 hours. -/
def create_access_token (secretKey : String) (now : Nat) (user_id : String)
    (roles : List String) (expires_delta : Option Nat) : JwtToken :=
  let expire :=
    match expires_delta with
    | some d => now + d
    | none => now + 60 * JWT_EXPIRE_MINUTES
  { claims := { sub := user_id, roles := roles, exp := expire, iat := now }
    signedWith := secretKey }

/-- `decode_access_token(token)`: verify the signature with the module
secret and reject expired tokens (`jose` raises once `exp < now`); any
failure yields `none`. -/
def decode_access_token (secretKey : String) (now : Nat) (token : JwtToken) :
    Option JwtClaims :=
  if token.signedWith == secretKey && token.claims.exp ≥ now then
    some token.claims
  else
    none

/-! ## CSRF middleware (`csrf.py`)

`CSRFMiddleware.dispatch` never inspects token internals before the
double-submit comparison; signature/freshness checking is delegated to
`verify_csrf_token`, modelled here as an arbitrary boolean predicate
parameter (its internals — `itsdangerous` signature and max-age — are not
part of the dispatch logic).  Cookie/header lookups return `Option String`;
Python's `not token` treats an empty string like a missing one. -/

/-- `SAFE_METHODS` from `csrf.py`. -/
def SAFE_METHODS : List String := ["GET", "HEAD", "OPTIONS", "TRACE"]

/-- `EXEMPT_PATHS` from `csrf.py`. -/
def EXEMPT_PATHS : List String := ["/health", "/docs", "/openapi.json", "/redoc", "/"]

/-- Python's `str.startswith(pre)`. -/
def pyStartsWith (s pre : String) : Bool :=
  s.data.take pre.data.length == pre.data

/-- Python truth-test on an optional string: `None` and `""` are falsy. -/
def strFalsy : Option String → Bool
  | none => true
  | some s => s == ""

/-- Outcome of the CSRF middleware: either the request is forwarded to the
underlying handler, or a 403 JSON response is returned and the handler is
never invoked. -/
inductive CsrfDecision where
  | passThrough
  | forbidden (detail : String)
deriving Repr, DecidableEq

/-- `CSRFMiddleware.dispatch`, with `verifyTok` standing for
`verify_csrf_token`. -/
def csrfDispatch (verifyTok : String → Bool) (method path : String)
    (cookie_token header_token : Option String) : CsrfDecision :=
  if SAFE_METHODS.contains method then .passThrough
  else if EXEMPT_PATHS.contains path then .passThrough
  else if !pyStartsWith path "/api/" then .passThrough
  else if path == "/api/csrf-token" then .passThrough
  else if strFalsy cookie_token || strFalsy header_token then
    .forbidden "CSRF 驗證失敗：缺少 token"
  else if cookie_token != header_token then
    .forbidden "CSRF 驗證失敗：token 不匹配"
  else if !verifyTok (cookie_token.getD "") then
    .forbidden "CSRF 驗證失敗：token 無效或已過期"
  else .passThrough

/-! ## Session context (`auth_routes.py`: `get_current_user`,
`require_login`, `require_admin`) -/

/-- Result of a route helper: success value or an `HTTPException`. -/
inductive ApiResult (α : Type) where
  | ok (value : α)
  | httpError (status : Nat) (detail : String)
deriving Repr, DecidableEq

/-- The identity dictionary produced by `get_current_user`. -/
structure CurrentUser where
  user_id : String
  roles : List String
deriving Repr, DecidableEq

/-- `get_current_user(request)`: read the `access_token` cookie, decode it,
and return the identity; absence of the cookie or any decode failure yields
`none` (anonymous), never an error. -/
def get_current_user (secretKey : String) (now : Nat) (cookie : Option JwtToken) :
    Option CurrentUser :=
  match cookie with
  | none => none
  | some token =>
    match decode_access_token secretKey now token with
    | none => none
    | some payload => some { user_id := payload.sub, roles := payload.roles }

/-- `require_login(request)`: 401 when anonymous. -/
def require_login (secretKey : String) (now : Nat) (cookie : Option JwtToken) :
    ApiResult CurrentUser :=
  match get_current_user secretKey now cookie with
  | none => .httpError 401 "請先登入"
  | some user => .ok user

/-- `require_admin(request)`: logged in and holding the `ADMIN` role;
insufficient role is 403, distinct from the 401 of `require_login`. -/
def require_admin (secretKey : String) (now : Nat) (cookie : Option JwtToken) :
    ApiResult CurrentUser :=
  match require_login secretKey now cookie with
  | .httpError s d => .httpError s d
  | .ok user =>
    if !user.roles.contains "ADMIN" then .httpError 403 "需要管理員權限"
    else .ok user

/-! ## Persistent store (`sys_user`, `sys_user_role`, `sys_password_history`,
`member`, `sys_password_policy`)

Timestamps (`locked_until`, `last_login_at`, …) are `Nat` seconds since the
epoch; calendar dates (`expire_date`) are ISO `YYYY-MM-DD` strings, whose
lexicographic order is the calendar order the source's `date` comparisons
use. -/

/-- A `sys_user` row, restricted to the columns this core reads or writes. -/
structure SysUser where
  user_id : String
  password_hash : String
  is_active : Bool
  expire_date : Option String
  login_fail_count : Nat
  locked_until : Option Nat
  last_login_at : Option Nat
  password_changed_at : Option Nat
  updated_at : Option Nat
deriving Repr, DecidableEq

/-- A `sys_user_role` row. -/
structure UserRole where
  user_id : String
  role_id : String
  granted_by : Option String
deriving Repr, DecidableEq

/-- A `sys_password_history` row; `created_at` defaults to insertion time. -/
structure HistoryEntry where
  user_id : String
  password_hash : String
  created_at : Nat
deriving Repr, DecidableEq

/-- The slice of the database this core touches.  `members` maps `emp_id`
to `chinese_name` for the login join; `policy` is the active
`sys_password_policy` row if any. -/
structure Db where
  users : List SysUser
  user_roles : List UserRole
  history : List HistoryEntry
  members : List (String × String)
  policy : Option PasswordPolicy
deriving Repr, DecidableEq

/-- `SELECT ... FROM sys_user WHERE user_id = %s` (unique key). -/
def dbFindUser (db : Db) (uid : String) : Option SysUser :=
  db.users.find? fun u => u.user_id == uid

/-- `UPDATE sys_user SET ... WHERE user_id = %s`. -/
def dbUpdateUser (db : Db) (uid : String) (f : SysUser → SysUser) : Db :=
  { db with users := db.users.map fun u => if u.user_id == uid then f u else u }

/-- `SELECT role_id FROM sys_user_role WHERE user_id = %s`. -/
def dbUserRoles (db : Db) (uid : String) : List String :=
  (db.user_roles.filter fun r => r.user_id == uid).map (·.role_id)

/-! ## `login` (`auth_routes.py`)

`now` is the current timestamp in seconds, `today` the current ISO date.
The handler's `raise HTTPException` outcomes become `ApiResult.httpError`;
the returned `Db` is the store after the handler's `UPDATE`s. -/

/-- The body of a successful `LoginResponse`. -/
structure LoginResponse where
  success : Bool
  message : String
  user_id : Option String
  user_name : Option String
  roles : Option (List String)
deriving Repr, DecidableEq

/-- `user.get("expire_date") and user["expire_date"] < datetime.now().date()`. -/
def userExpired (u : SysUser) (today : String) : Bool :=
  match u.expire_date with
  | some d => decide (d < today)
  | none => false

/-- `user.get("locked_until") and user["locked_until"] > datetime.now()`. -/
def userLocked (u : SysUser) (now : Nat) : Bool :=
  match u.locked_until with
  | some t => decide (now < t)
  | none => false

/-- `(user["locked_until"] - datetime.now()).seconds // 60`: a Python
`timedelta`'s `.seconds` field is the total seconds modulo one day. -/
def lockedRemainingMin (u : SysUser) (now : Nat) : Nat :=
  (u.locked_until.getD 0 - now) % 86400 / 60

/-- Python's `str.strip()`: drop leading and trailing whitespace. -/
def pyStrip (s : String) : String :=
  String.mk ((s.data.dropWhile Char.isWhitespace).reverse.dropWhile Char.isWhitespace).reverse

/-- The `login` endpoint: account-state checks in source order, then
password verification with failure counting and lockout, then the success
update and session issuance (the issued token itself is cookie plumbing and
is not part of the returned body). -/
def login (db : Db) (now : Nat) (today : String) (user_id_raw password : String) :
    ApiResult LoginResponse × Db :=
  let user_id := pyStrip user_id_raw
  match dbFindUser db user_id with
  | none => (.httpError 401 "帳號或密碼錯誤", db)
  | some user =>
    if !user.is_active then
      (.httpError 401 "帳號未啟用", db)
    else if userExpired user today then
      (.httpError 401 "帳號已過期", db)
    else if userLocked user now then
      (.httpError 401 ("帳號已被鎖定，請於 " ++ toString (lockedRemainingMin user now)
        ++ " 分鐘後重試"), db)
    else if !verify_password password user.password_hash then
      let policy := get_password_policy db.policy
      let new_fail_count := user.login_fail_count + 1
      if new_fail_count ≥ policy.max_login_attempts then
        let lockout_min := policy.lockout_duration_min
        let locked_until := now + 60 * lockout_min
        (.httpError 401 ("密碼錯誤次數過多，帳號已被鎖定 " ++ toString lockout_min
            ++ " 分鐘"),
         dbUpdateUser db user_id fun u =>
           { u with login_fail_count := new_fail_count, locked_until := some locked_until })
      else
        let remaining := policy.max_login_attempts - new_fail_count
        (.httpError 401 ("帳號或密碼錯誤，還有 " ++ toString remaining ++ " 次嘗試機會"),
         dbUpdateUser db user_id fun u => { u with login_fail_count := new_fail_count })
    else
      let db1 := dbUpdateUser db user_id fun u =>
        { u with login_fail_count := 0, locked_until := none, last_login_at := some now }
      let roles := dbUserRoles db user_id
      (.ok { success := true
             message := "登入成功"
             user_id := some user_id
             user_name := (db.members.find? fun m => m.1 == user_id).map (·.2)
             roles := some roles },
       db1)

/-! ## `change_password` (`auth_routes.py`) -/

/-- `ORDER BY created_at DESC`: stable descending insertion sort. -/
def insertByCreatedDesc (e : HistoryEntry) : List HistoryEntry → List HistoryEntry
  | [] => [e]
  | x :: xs =>
    if x.created_at ≥ e.created_at then x :: insertByCreatedDesc e xs
    else e :: x :: xs

/-- Sort history rows newest first. -/
def sortByCreatedDesc : List HistoryEntry → List HistoryEntry
  | [] => []
  | x :: xs => insertByCreatedDesc x (sortByCreatedDesc xs)

/-- `SELECT password_hash FROM sys_password_history WHERE user_id = %s ORDER
BY created_at DESC LIMIT %s`. -/
def recentHistoryHashes (db : Db) (uid : String) (n : Nat) : List String :=
  ((sortByCreatedDesc (db.history.filter fun h => h.user_id == uid)).take n).map
    (·.password_hash)

/-- The `change_password` endpoint, for an authenticated `current` user. -/
def change_password (db : Db) (now : Nat) (current : CurrentUser)
    (old_password new_password : String) : ApiResult String × Db :=
  let user_id := current.user_id
  match dbFindUser db user_id with
  | none => (.httpError 404 "使用者不存在", db)
  | some row =>
    if !verify_password old_password row.password_hash then
      (.httpError 400 "舊密碼錯誤", db)
    else
      let policy := get_password_policy db.policy
      let validated := validate_password_strength new_password policy
      if !validated.1 then
        (.httpError 400 validated.2, db)
      else
        let history_count := policy.password_history_count
        if history_count > 0 &&
            (recentHistoryHashes db user_id history_count).any
              (fun h => verify_password new_password h) then
          (.httpError 400 ("新密碼不可與前 " ++ toString history_count
            ++ " 次使用的密碼相同"), db)
        else
          let new_hash := hash_password new_password
          let db1 := dbUpdateUser db user_id fun u =>
            { u with password_hash := new_hash
                     password_changed_at := some now
                     updated_at := some now }
          let db2 := { db1 with
            history := db1.history
              ++ [{ user_id := user_id, password_hash := new_hash, created_at := now }] }
          (.ok "密碼變更成功", db2)

/-! ## `update_user` (`system_routes.py`) -/

/-- The `UserUpdateRequest` body; all fields optional. -/
structure UserUpdateRequest where
  is_active : Option Bool
  expire_date : Option String
  role_ids : Option (List String)
  reset_password : Option String
deriving Repr, DecidableEq

/-- The administrative `update_user` endpoint (called by an authenticated
admin).  Python truthiness: `if body.reset_password:` skips both `None` and
the empty string, and an empty `expire_date` string is stored as `NULL`. -/
def update_user (db : Db) (now : Nat) (admin : CurrentUser) (user_id : String)
    (body : UserUpdateRequest) : ApiResult String × Db :=
  match dbFindUser db user_id with
  | none => (.httpError 404 "使用者不存在", db)
  | some _ =>
    let resetPw : Option String :=
      match body.reset_password with
      | some pw => if pw == "" then none else some pw
      | none => none
    -- the history INSERT precedes the UPDATE, inside the reset branch
    let db1 :=
      match resetPw with
      | some pw =>
        { db with history := db.history
            ++ [{ user_id := user_id, password_hash := hash_password pw, created_at := now }] }
      | none => db
    let anyUpdate := body.is_active.isSome || body.expire_date.isSome || resetPw.isSome
    let db2 :=
      if anyUpdate then
        dbUpdateUser db1 user_id fun u0 =>
          let u1 :=
            match body.is_active with
            | some b => { u0 with is_active := b }
            | none => u0
          let u2 :=
            match body.expire_date with
            | some s => { u1 with expire_date := if s == "" then none else some s }
            | none => u1
          let u3 :=
            match resetPw with
            | some pw =>
              { u2 with password_hash := hash_password pw, password_changed_at := some now }
            | none => u2
          { u3 with updated_at := some now }
      else db1
    let db3 :=
      match body.role_ids with
      | some rids =>
        { db2 with user_roles :=
            (db2.user_roles.filter fun r => r.user_id != user_id)
              ++ rids.map fun rid =>
                { user_id := user_id, role_id := rid, granted_by := some admin.user_id } }
      | none => db2
    (.ok "使用者更新成功", db3)

/-! ## Helper lemmas about the digest and the store -/

theorem sha512Round_length (k w : Nat) (st : List Nat) :
    (sha512Round st k w).length = st.length := by
  unfold sha512Round
  split <;> simp_all

theorem foldlRound_length (l : List (Nat × Nat)) (st : List Nat) :
    (l.foldl (fun s p => sha512Round s p.1 p.2) st).length = st.length := by
  induction l generalizing st with
  | nil => rfl
  | cons p l ih => rw [List.foldl_cons, ih, sha512Round_length]

theorem sha512Compress_length (st b : List Nat) :
    (sha512Compress st b).length = st.length := by
  unfold sha512Compress
  simp [List.length_zip, foldlRound_length]

theorem foldlCompress_length (bs : List (List Nat)) (st : List Nat) :
    (bs.foldl sha512Compress st).length = st.length := by
  induction bs generalizing st with
  | nil => rfl
  | cons b bs ih => rw [List.foldl_cons, ih, sha512Compress_length]

theorem sha512Words_length (msg : List Nat) : (sha512Words msg).length = 8 := by
  unfold sha512Words
  rw [foldlCompress_length]
  rfl

theorem hexWord16_length (w : Nat) : (hexWord16 w).length = 16 := by
  simp [hexWord16]

theorem wordsToHex_length (ws : List Nat) : (wordsToHex ws).length = 16 * ws.length := by
  unfold wordsToHex
  rw [String.length_mk]
  induction ws with
  | nil => rfl
  | cons w ws ih =>
    simp only [List.foldr_cons, List.length_append, hexWord16_length, List.length_cons, ih]
    ring

theorem hash_password_length (p : String) : (hash_password p).length = 128 := by
  unfold hash_password
  rw [wordsToHex_length, sha512Words_length]

theorem verify_password_false_of_length (p h : String) (hlen : h.length ≠ 128) :
    verify_password p h = false := by
  unfold verify_password
  rw [beq_eq_false_iff_ne]
  intro e
  exact hlen (e ▸ hash_password_length p)

theorem find?_update_eq (uid : String) (f : SysUser → SysUser)
    (hf : ∀ u, (f u).user_id = u.user_id) :
    ∀ us : List SysUser,
      ((us.map fun u => if u.user_id == uid then f u else u).find?
          fun u => u.user_id == uid)
        = (us.find? fun u => u.user_id == uid).map f := by
  intro us
  induction us with
  | nil => rfl
  | cons u us ih =>
    by_cases hu : u.user_id = uid
    · rw [List.map_cons, List.find?_cons_of_pos _ (by simp [hu, hf]),
        List.find?_cons_of_pos _ (by simp [hu])]
      simp [hu]
    · rw [List.map_cons, List.find?_cons_of_neg _ (by simp [hu]),
        List.find?_cons_of_neg _ (by simp [hu]), ih]

theorem dbFindUser_dbUpdateUser (db : Db) (uid : String) (f : SysUser → SysUser)
    (hf : ∀ u, (f u).user_id = u.user_id) :
    dbFindUser (dbUpdateUser db uid f) uid = (dbFindUser db uid).map f :=
  find?_update_eq uid f hf db.users

theorem recentHistoryHashes_zero (db : Db) (uid : String) :
    recentHistoryHashes db uid 0 = [] := by
  simp [recentHistoryHashes]

theorem change_password_reject_eq (db : Db) (now : Nat) (cu : CurrentUser)
    (oldp newp : String) (u : SysUser)
    (hfind : dbFindUser db cu.user_id = some u)
    (hold : verify_password oldp u.password_hash = true)
    (hvalid : (validate_password_strength newp (get_password_policy db.policy)).1 = true)
    (hany : (recentHistoryHashes db cu.user_id
        (get_password_policy db.policy).password_history_count).any
        (fun h => verify_password newp h) = true) :
    change_password db now cu oldp newp =
      (.httpError 400 ("新密碼不可與前 "
          ++ toString (get_password_policy db.policy).password_history_count
          ++ " 次使用的密碼相同"), db) := by
  have hn : 0 < (get_password_policy db.policy).password_history_count := by
    rcases h0 : (get_password_policy db.policy).password_history_count with _ | n
    · rw [h0, recentHistoryHashes_zero] at hany
      simp at hany
    · exact Nat.succ_pos n
  simp [change_password, hfind, hold, hvalid, hany, hn]

theorem change_password_success_eq (db : Db) (now : Nat) (cu : CurrentUser)
    (oldp newp : String) (u : SysUser)
    (hfind : dbFindUser db cu.user_id = some u)
    (hold : verify_password oldp u.password_hash = true)
    (hvalid : (validate_password_strength newp (get_password_policy db.policy)).1 = true)
    (hany : (recentHistoryHashes db cu.user_id
        (get_password_policy db.policy).password_history_count).any
        (fun h => verify_password newp h) = false) :
    change_password db now cu oldp newp =
      (.ok "密碼變更成功",
       { dbUpdateUser db cu.user_id (fun x =>
           { x with password_hash := hash_password newp
                    password_changed_at := some now
                    updated_at := some now }) with
         history := db.history ++ [{ user_id := cu.user_id
                                     password_hash := hash_password newp
                                     created_at := now }] }) := by
  simp [change_password, hfind, hold, hvalid, hany]
  simp [dbUpdateUser]

theorem map_proj_update (uid : String) (g : SysUser → SysUser)
    (hg : ∀ x, ((g x).login_fail_count, (g x).locked_until)
      = (x.login_fail_count, x.locked_until)) :
    ∀ us : List SysUser,
      ((us.map fun x => if x.user_id == uid then g x else x).map
          fun x => (x.login_fail_count, x.locked_until))
        = us.map fun x => (x.login_fail_count, x.locked_until) := by
  intro us
  induction us with
  | nil => rfl
  | cons x xs ih =>
    have hx : ((if x.user_id == uid then g x else x).login_fail_count,
        (if x.user_id == uid then g x else x).locked_until)
        = (x.login_fail_count, x.locked_until) := by
      cases h : x.user_id == uid
      · simp
      · simp [hg]
    simp only [List.map_cons, ih, hx]

theorem update_user_users_frame (db : Db) (now : Nat) (admin : CurrentUser)
    (uid : String) (body : UserUpdateRequest) :
    ((update_user db now admin uid body).2.users.map
        fun x => (x.login_fail_count, x.locked_until))
      = db.users.map fun x => (x.login_fail_count, x.locked_until) := by
  rcases hfu : dbFindUser db uid with _ | w
  · simp [update_user, hfu]
  · rcases body with ⟨bact, bexp, brol, brpw⟩
    rcases brpw with _ | pw₀
    · rcases bact with _ | b <;> rcases bexp with _ | e <;> rcases brol with _ | r <;>
        simp [update_user, hfu, dbUpdateUser] <;>
          (intro a _; constructor <;> split <;> rfl)
    · by_cases hpw0 : (pw₀ == "") = true <;>
        rcases bact with _ | b <;> rcases bexp with _ | e <;> rcases brol with _ | r <;>
          simp [update_user, hfu, hpw0, dbUpdateUser] <;>
            (intro a _; constructor <;> split <;> rfl)

/-! ## Claim theorems -/

/-- **C7.** `validate_password_strength` checks minimum length, then
uppercase, lowercase, digit, and (only when required) special-character
presence, in that order, returning at the first failing check with its
reason and `(true, "")` when every enabled check passes; under the default
policy `"abcdefgh"` fails (uppercase reason first), `"Abcdef12"` passes,
and `"Ab1"` fails with the length reason. -/
theorem validate_password_checks (password : String) (policy : PasswordPolicy) :
    (password.length < policy.min_length →
      validate_password_strength password policy =
        (false, "密碼長度至少 " ++ toString policy.min_length ++ " 個字元"))
    ∧ (¬ password.length < policy.min_length →
        (policy.require_uppercase && !password.data.any Char.isUpper) = true →
        validate_password_strength password policy = (false, "密碼必須包含大寫字母"))
    ∧ (¬ password.length < policy.min_length →
        (policy.require_uppercase && !password.data.any Char.isUpper) = false →
        (policy.require_lowercase && !password.data.any Char.isLower) = true →
        validate_password_strength password policy = (false, "密碼必須包含小寫字母"))
    ∧ (¬ password.length < policy.min_length →
        (policy.require_uppercase && !password.data.any Char.isUpper) = false →
        (policy.require_lowercase && !password.data.any Char.isLower) = false →
        (policy.require_number && !password.data.any Char.isDigit) = true →
        validate_password_strength password policy = (false, "密碼必須包含數字"))
    ∧ (¬ password.length < policy.min_length →
        (policy.require_uppercase && !password.data.any Char.isUpper) = false →
        (policy.require_lowercase && !password.data.any Char.isLower) = false →
        (policy.require_number && !password.data.any Char.isDigit) = false →
        (policy.require_special && !password.data.any (fun c => special_chars.data.contains c)) = true →
        validate_password_strength password policy = (false, "密碼必須包含特殊符號"))
    ∧ (¬ password.length < policy.min_length →
        (policy.require_uppercase && !password.data.any Char.isUpper) = false →
        (policy.require_lowercase && !password.data.any Char.isLower) = false →
        (policy.require_number && !password.data.any Char.isDigit) = false →
        (policy.require_special && !password.data.any (fun c => special_chars.data.contains c)) = false →
        validate_password_strength password policy = (true, ""))
    ∧ validate_password_strength "abcdefgh" (get_password_policy none) =
        (false, "密碼必須包含大寫字母")
    ∧ validate_password_strength "Abcdef12" (get_password_policy none) = (true, "")
    ∧ validate_password_strength "Ab1" (get_password_policy none) =
        (false, "密碼長度至少 8 個字元") := by
  refine ⟨?_, ?_, ?_, ?_, ?_, ?_, by decide, by decide, by decide⟩ <;>
    · intros
      simp only [validate_password_strength, *]
      simp [*]

/-- Concrete instantiation of `validate_password_checks`: the uppercase
check is the first to fail on `"abcdefgh"` under the default policy. -/
theorem validate_password_checks_witness :
    (¬ ("abcdefgh".length < (get_password_policy none).min_length))
    ∧ ((get_password_policy none).require_uppercase && !"abcdefgh".data.any Char.isUpper) = true
    ∧ validate_password_strength "abcdefgh" (get_password_policy none) =
        (false, "密碼必須包含大寫字母") :=
  ⟨by decide, by decide,
    (validate_password_checks "abcdefgh" (get_password_policy none)).2.1
      (by decide) (by decide)⟩

/-- **C5.** Decoding a token issued for `(u, roles)` at any time strictly
before its expiry returns the claims with subject `u` and `roles`
unchanged; at any time strictly after issuance time plus the configured TTL
(the given delta, or the default eight hours), decoding reports invalid. -/
theorem token_issue_decode_roundtrip (secretKey : String) (now : Nat) (u : String)
    (roles : List String) (delta : Option Nat) (t : Nat) :
    (t < now + delta.getD (60 * JWT_EXPIRE_MINUTES) →
      decode_access_token secretKey t (create_access_token secretKey now u roles delta) =
        some { sub := u, roles := roles,
               exp := now + delta.getD (60 * JWT_EXPIRE_MINUTES), iat := now })
    ∧ (now + delta.getD (60 * JWT_EXPIRE_MINUTES) < t →
      decode_access_token secretKey t (create_access_token secretKey now u roles delta) =
        none) := by
  constructor <;> intro h <;>
    cases delta <;>
      simp_all [create_access_token, decode_access_token, Option.getD] <;>
        omega

/-- Concrete instantiation of `token_issue_decode_roundtrip`: a token
issued at time 0 with the default TTL decodes intact at time 5 and is
invalid at time `60 * JWT_EXPIRE_MINUTES + 1`. -/
theorem token_issue_decode_roundtrip_witness :
    (5 < 0 + (none : Option Nat).getD (60 * JWT_EXPIRE_MINUTES)
      ∧ decode_access_token "k" 5 (create_access_token "k" 0 "u" ["ADMIN"] none) =
          some { sub := "u", roles := ["ADMIN"],
                 exp := 0 + (none : Option Nat).getD (60 * JWT_EXPIRE_MINUTES), iat := 0 })
    ∧ (0 + (none : Option Nat).getD (60 * JWT_EXPIRE_MINUTES) < 60 * JWT_EXPIRE_MINUTES + 1
      ∧ decode_access_token "k" (60 * JWT_EXPIRE_MINUTES + 1)
          (create_access_token "k" 0 "u" ["ADMIN"] none) = none) :=
  ⟨⟨by decide,
    (token_issue_decode_roundtrip "k" 0 "u" ["ADMIN"] none 5).1 (by decide)⟩,
   ⟨by decide,
    (token_issue_decode_roundtrip "k" 0 "u" ["ADMIN"] none
      (60 * JWT_EXPIRE_MINUTES + 1)).2 (by decide)⟩⟩

/-- **C9.** A missing session cookie or a token that fails to decode yields
the anonymous identity (no error escapes identity derivation) and a 401
from `require_login`; a decodable token logs the user in, and
`require_admin` returns a distinct 403 exactly when the `ADMIN` role is
absent from the decoded role set. -/
theorem session_guard_statuses (secretKey : String) (now : Nat) :
    (get_current_user secretKey now none = none
      ∧ require_login secretKey now none = .httpError 401 "請先登入")
    ∧ (∀ tok : JwtToken, decode_access_token secretKey now tok = none →
        get_current_user secretKey now (some tok) = none
        ∧ require_login secretKey now (some tok) = .httpError 401 "請先登入")
    ∧ (∀ tok payload, decode_access_token secretKey now tok = some payload →
        require_login secretKey now (some tok) =
          .ok { user_id := payload.sub, roles := payload.roles }
        ∧ ("ADMIN" ∉ payload.roles →
            require_admin secretKey now (some tok) = .httpError 403 "需要管理員權限")
        ∧ ("ADMIN" ∈ payload.roles →
            require_admin secretKey now (some tok) =
              .ok { user_id := payload.sub, roles := payload.roles })) := by
  refine ⟨⟨rfl, rfl⟩, ?_, ?_⟩
  · intro tok h
    constructor <;> simp [get_current_user, require_login, h]
  · intro tok payload h
    have hcur : get_current_user secretKey now (some tok) =
        some { user_id := payload.sub, roles := payload.roles } := by
      simp [get_current_user, h]
    have hlogin : require_login secretKey now (some tok) =
        .ok { user_id := payload.sub, roles := payload.roles } := by
      simp [require_login, hcur]
    refine ⟨hlogin, fun hr => ?_, fun hr => ?_⟩ <;>
      · unfold require_admin
        rw [hlogin]
        simp [hr]

/-- Concrete instantiation of `session_guard_statuses`: a token signed with
the wrong secret is anonymous, and a decoded token without `ADMIN` gets
403. -/
theorem session_guard_statuses_witness :
    (decode_access_token "k" 0 ⟨⟨"u", [], 9, 0⟩, "other"⟩ = none
      ∧ require_login "k" 0 (some ⟨⟨"u", [], 9, 0⟩, "other"⟩) = .httpError 401 "請先登入")
    ∧ (decode_access_token "k" 0 ⟨⟨"u", ["USER"], 9, 0⟩, "k"⟩ = some ⟨"u", ["USER"], 9, 0⟩
      ∧ require_admin "k" 0 (some ⟨⟨"u", ["USER"], 9, 0⟩, "k"⟩) =
          .httpError 403 "需要管理員權限") :=
  ⟨⟨by decide,
    ((session_guard_statuses "k" 0).2.1 _ (by decide)).2⟩,
   ⟨by decide,
    (((session_guard_statuses "k" 0).2.2 _ ⟨"u", ["USER"], 9, 0⟩ (by decide)).2.1
      (by decide))⟩⟩

/-- **C4.** The CSRF middleware forwards safe-method, exempt-path,
non-`/api/`, and token-endpoint requests unchecked; every other request is
rejected 403 when the cookie or header token is missing, rejected 403 when
the two differ (in both cases without consulting the signature verifier, as
the independence conjunct states), and only with both present and equal is
the signature/freshness verifier consulted, a failure there giving 403 too;
a `forbidden` outcome never reaches the underlying handler by
construction. -/
theorem csrf_dispatch_protocol (verifyTok verifyTok2 : String → Bool)
    (method path : String) (cookie header : Option String) :
    (method ∈ SAFE_METHODS ∨ path ∈ EXEMPT_PATHS ∨
        pyStartsWith path "/api/" = false ∨ path = "/api/csrf-token" →
      csrfDispatch verifyTok method path cookie header = .passThrough)
    ∧ (method ∉ SAFE_METHODS → path ∉ EXEMPT_PATHS →
        pyStartsWith path "/api/" = true → path ≠ "/api/csrf-token" →
        ((cookie = none ∨ header = none →
            csrfDispatch verifyTok method path cookie header =
              .forbidden "CSRF 驗證失敗：缺少 token")
         ∧ (∀ c h, cookie = some c → header = some h → c ≠ "" → h ≠ "" → c ≠ h →
             csrfDispatch verifyTok method path cookie header =
               .forbidden "CSRF 驗證失敗：token 不匹配")
         ∧ (∀ c, cookie = some c → header = some c → c ≠ "" →
             (verifyTok c = false →
                csrfDispatch verifyTok method path cookie header =
                  .forbidden "CSRF 驗證失敗：token 無效或已過期")
             ∧ (verifyTok c = true →
                csrfDispatch verifyTok method path cookie header = .passThrough))))
    ∧ (cookie = none ∨ header = none ∨ cookie ≠ header →
        csrfDispatch verifyTok method path cookie header =
          csrfDispatch verifyTok2 method path cookie header) := by
  refine ⟨?_, ?_, ?_⟩
  · rintro (h | h | h | rfl) <;> simp_all [csrfDispatch]
  · intro hm he hs hp
    have hp' : (path == "/api/csrf-token") = false := by
      simp [hp]
    refine ⟨?_, ?_, ?_⟩
    · rintro (rfl | rfl) <;>
        simp [csrfDispatch, hm, he, hs, hp', strFalsy]
    · rintro c h rfl rfl hcne hhne hne
      simp [csrfDispatch, hm, he, hs, hp', strFalsy, hcne, hhne, hne]
    · rintro c rfl rfl hcne
      constructor <;> intro hv <;>
        simp [csrfDispatch, hm, he, hs, hp', strFalsy, hcne, hv]
  · rintro (rfl | rfl | hne)
    · simp [csrfDispatch, strFalsy]
    · simp [csrfDispatch, strFalsy]
    · have hbne : (cookie != header) = true := by
        simp [bne_iff_ne, hne]
      simp [csrfDispatch, hbne]

/-- Concrete instantiation of `csrf_dispatch_protocol`: a `POST` to
`/api/members` with matching nonempty tokens reaches the signature check,
which decides the outcome. -/
theorem csrf_dispatch_protocol_witness :
    "POST" ∉ SAFE_METHODS
    ∧ "/api/members" ∉ EXEMPT_PATHS
    ∧ pyStartsWith "/api/members" "/api/" = true
    ∧ "/api/members" ≠ "/api/csrf-token"
    ∧ (fun _ : String => false) "t" = false
    ∧ csrfDispatch (fun _ => false) "POST" "/api/members" (some "t") (some "t") =
        .forbidden "CSRF 驗證失敗：token 無效或已過期"
    ∧ csrfDispatch (fun _ => true) "POST" "/api/members" (some "t") (some "t") =
        .passThrough :=
  ⟨by decide, by decide, by decide, by decide, rfl,
   (((csrf_dispatch_protocol (fun _ => false) (fun _ => false) "POST" "/api/members"
        (some "t") (some "t")).2.1 (by decide) (by decide) (by decide) (by decide)).2.2
      "t" rfl rfl (by decide)).1 rfl,
   (((csrf_dispatch_protocol (fun _ => true) (fun _ => true) "POST" "/api/members"
        (some "t") (some "t")).2.1 (by decide) (by decide) (by decide) (by decide)).2.2
      "t" rfl rfl (by decide)).2 rfl⟩

/-- **C2.** Login evaluates the account checks in the fixed order Unknown,
Disabled, Expired, Locked; the first matching state rejects with its
specific message and leaves the store untouched, and in every such terminal
state the outcome is independent of the submitted password (the stored hash
is never compared). -/
theorem login_state_check_order (db : Db) (now : Nat) (today : String)
    (uid pw : String) :
    (dbFindUser db (pyStrip uid) = none →
      login db now today uid pw = (.httpError 401 "帳號或密碼錯誤", db))
    ∧ (∀ u, dbFindUser db (pyStrip uid) = some u →
        (u.is_active = false →
          login db now today uid pw = (.httpError 401 "帳號未啟用", db))
        ∧ (u.is_active = true → userExpired u today = true →
          login db now today uid pw = (.httpError 401 "帳號已過期", db))
        ∧ (u.is_active = true → userExpired u today = false → userLocked u now = true →
          login db now today uid pw =
            (.httpError 401 ("帳號已被鎖定，請於 " ++ toString (lockedRemainingMin u now)
              ++ " 分鐘後重試"), db)))
    ∧ ((dbFindUser db (pyStrip uid) = none ∨
        (∃ u, dbFindUser db (pyStrip uid) = some u ∧
          (u.is_active = false ∨ userExpired u today = true ∨ userLocked u now = true))) →
        ∀ pw', login db now today uid pw = login db now today uid pw') := by
  refine ⟨?_, ?_, ?_⟩
  · intro h
    simp [login, h]
  · intro u hu
    refine ⟨fun h1 => ?_, fun h1 h2 => ?_, fun h1 h2 h3 => ?_⟩ <;>
      simp [login, hu, h1, *]
  · rintro (h | ⟨u, hu, hcase⟩) pw'
    · simp [login, h]
    · rcases hcase with h1 | h1 | h1
      · simp [login, hu, h1]
      · simp [login, hu, h1]
      · rcases h2 : u.is_active with _ | _ <;>
          rcases h3 : userExpired u today with _ | _ <;>
            simp [login, hu, h1, h2, h3]

/-- Concrete instantiation of `login_state_check_order`: an unknown account
is rejected with the generic message, and a locked account is rejected with
the lockout message. -/
theorem login_state_check_order_witness :
    (dbFindUser ⟨[], [], [], [], none⟩ (pyStrip "u1") = none
      ∧ login ⟨[], [], [], [], none⟩ 50 "2026-01-01" "u1" "pw" =
          (.httpError 401 "帳號或密碼錯誤", ⟨[], [], [], [], none⟩))
    ∧ (dbFindUser ⟨[⟨"u1", "x", true, none, 0, some 100, none, none, none⟩], [], [], [], none⟩
          (pyStrip "u1") = some ⟨"u1", "x", true, none, 0, some 100, none, none, none⟩
      ∧ login ⟨[⟨"u1", "x", true, none, 0, some 100, none, none, none⟩], [], [], [], none⟩
          50 "2026-01-01" "u1" "pw" =
        (.httpError 401 ("帳號已被鎖定，請於 "
            ++ toString (lockedRemainingMin ⟨"u1", "x", true, none, 0, some 100, none, none, none⟩ 50)
            ++ " 分鐘後重試"),
         ⟨[⟨"u1", "x", true, none, 0, some 100, none, none, none⟩], [], [], [], none⟩)) :=
  ⟨⟨by decide,
    (login_state_check_order ⟨[], [], [], [], none⟩ 50 "2026-01-01" "u1" "pw").1 (by decide)⟩,
   ⟨by decide,
    (((login_state_check_order
        ⟨[⟨"u1", "x", true, none, 0, some 100, none, none, none⟩], [], [], [], none⟩
        50 "2026-01-01" "u1" "pw").2.1
        ⟨"u1", "x", true, none, 0, some 100, none, none, none⟩ (by decide)).2.2 (by decide)
          (by decide) (by decide))⟩⟩

/-- **C1.** On a wrong password for an otherwise eligible account, the
failure counter is incremented by one; when the new count reaches
`max_login_attempts` the account is locked until `now` plus the lockout
duration and the rejection reports that duration, otherwise only the new
count is persisted and the rejection reports `max_login_attempts - new
count` remaining attempts, which is strictly smaller than the count the
previous failed attempt reported. -/
theorem login_wrong_password (db : Db) (now : Nat) (today : String)
    (uid pw : String) (u : SysUser)
    (hfind : dbFindUser db (pyStrip uid) = some u)
    (hact : u.is_active = true)
    (hexp : userExpired u today = false)
    (hlock : userLocked u now = false)
    (hpw : verify_password pw u.password_hash = false) :
    ((get_password_policy db.policy).max_login_attempts ≤ u.login_fail_count + 1 →
      login db now today uid pw =
        (.httpError 401 ("密碼錯誤次數過多，帳號已被鎖定 "
            ++ toString (get_password_policy db.policy).lockout_duration_min ++ " 分鐘"),
         dbUpdateUser db (pyStrip uid) fun x =>
           { x with
              login_fail_count := u.login_fail_count + 1
              locked_until :=
                some (now + 60 * (get_password_policy db.policy).lockout_duration_min) }))
    ∧ (u.login_fail_count + 1 < (get_password_policy db.policy).max_login_attempts →
      login db now today uid pw =
        (.httpError 401 ("帳號或密碼錯誤，還有 "
            ++ toString ((get_password_policy db.policy).max_login_attempts
              - (u.login_fail_count + 1)) ++ " 次嘗試機會"),
         dbUpdateUser db (pyStrip uid) fun x =>
           { x with login_fail_count := u.login_fail_count + 1 }))
    ∧ (u.login_fail_count + 1 < (get_password_policy db.policy).max_login_attempts →
        (get_password_policy db.policy).max_login_attempts - (u.login_fail_count + 1)
          < (get_password_policy db.policy).max_login_attempts - u.login_fail_count) := by
  refine ⟨fun h => ?_, fun h => ?_, fun h => by omega⟩
  · simp only [login, hfind, hact, hexp, hlock, hpw]
    simp [h]
  · simp only [login, hfind, hact, hexp, hlock, hpw]
    simp
    intro hc
    exact absurd hc (by omega)

/-- Concrete instantiation of `login_wrong_password`: a fourth failure on a
default-policy account reports one remaining attempt; a fifth locks the
account for thirty minutes. -/
theorem login_wrong_password_witness :
    (dbFindUser ⟨[⟨"u1", "h", true, none, 3, none, none, none, none⟩], [], [], [], none⟩
        (pyStrip "u1") = some ⟨"u1", "h", true, none, 3, none, none, none, none⟩
      ∧ verify_password "bad" "h" = false
      ∧ login ⟨[⟨"u1", "h", true, none, 3, none, none, none, none⟩], [], [], [], none⟩
          50 "2026-01-01" "u1" "bad" =
        (.httpError 401 ("帳號或密碼錯誤，還有 " ++ toString (5 - (3 + 1) : Nat)
            ++ " 次嘗試機會"),
         dbUpdateUser ⟨[⟨"u1", "h", true, none, 3, none, none, none, none⟩], [], [], [], none⟩
           (pyStrip "u1") fun x => { x with login_fail_count := 3 + 1 }))
    ∧ (login ⟨[⟨"u1", "h", true, none, 4, none, none, none, none⟩], [], [], [], none⟩
          50 "2026-01-01" "u1" "bad" =
        (.httpError 401 ("密碼錯誤次數過多，帳號已被鎖定 " ++ toString (30 : Nat) ++ " 分鐘"),
         dbUpdateUser ⟨[⟨"u1", "h", true, none, 4, none, none, none, none⟩], [], [], [], none⟩
           (pyStrip "u1") fun x =>
             { x with login_fail_count := 4 + 1, locked_until := some (50 + 60 * 30) })) :=
  ⟨⟨by decide, verify_password_false_of_length "bad" "h" (by decide),
    (login_wrong_password _ 50 "2026-01-01" "u1" "bad"
        ⟨"u1", "h", true, none, 3, none, none, none, none⟩ (by decide) (by decide)
        (by decide) (by decide)
        (verify_password_false_of_length "bad" "h" (by decide))).2.1 (by decide)⟩,
   (login_wrong_password _ 50 "2026-01-01" "u1" "bad"
      ⟨"u1", "h", true, none, 4, none, none, none, none⟩ (by decide) (by decide)
      (by decide) (by decide)
      (verify_password_false_of_length "bad" "h" (by decide))).1 (by decide)⟩

/-- **C3.** A correct password on an active, unexpired, unlocked account
produces the success response and performs the single store update that
sets `login_fail_count` to 0, `locked_until` to `NULL`, and `last_login_at`
to `now` together; the stored account afterwards carries exactly those
three changes. -/
theorem login_success_reset (db : Db) (now : Nat) (today : String)
    (uid pw : String) (u : SysUser)
    (hfind : dbFindUser db (pyStrip uid) = some u)
    (hact : u.is_active = true)
    (hexp : userExpired u today = false)
    (hlock : userLocked u now = false)
    (hpw : verify_password pw u.password_hash = true) :
    login db now today uid pw =
      (.ok { success := true
             message := "登入成功"
             user_id := some (pyStrip uid)
             user_name := (db.members.find? fun m => m.1 == pyStrip uid).map (·.2)
             roles := some (dbUserRoles db (pyStrip uid)) },
       dbUpdateUser db (pyStrip uid) fun x =>
         { x with login_fail_count := 0, locked_until := none, last_login_at := some now })
    ∧ dbFindUser (login db now today uid pw).2 (pyStrip uid) =
        some { u with login_fail_count := 0, locked_until := none, last_login_at := some now } := by
  have hmain : login db now today uid pw =
      (.ok { success := true
             message := "登入成功"
             user_id := some (pyStrip uid)
             user_name := (db.members.find? fun m => m.1 == pyStrip uid).map (·.2)
             roles := some (dbUserRoles db (pyStrip uid)) },
       dbUpdateUser db (pyStrip uid) fun x =>
         { x with login_fail_count := 0, locked_until := none, last_login_at := some now }) := by
    simp [login, hfind, hact, hexp, hlock, hpw]
  have h2 : dbFindUser (dbUpdateUser db (pyStrip uid) fun x =>
      { x with login_fail_count := 0, locked_until := none, last_login_at := some now })
      (pyStrip uid) =
      some { u with login_fail_count := 0, locked_until := none, last_login_at := some now } := by
    rw [dbFindUser_dbUpdateUser db (pyStrip uid)
      (fun x => { x with login_fail_count := 0, locked_until := none, last_login_at := some now })
      (fun v => rfl), hfind]
    rfl
  exact ⟨hmain, by rw [hmain]; exact h2⟩

/-- Concrete instantiation of `login_success_reset`: a correct password on
an account with four prior failures resets the counters. -/
theorem login_success_reset_witness :
    (verify_password "Abcdef12" (hash_password "Abcdef12") = true
      ∧ login ⟨[⟨"u1", hash_password "Abcdef12", true, none, 4, none, none, none, none⟩],
          [⟨"u1", "ADMIN", none⟩], [], [], none⟩ 50 "2026-01-01" "u1" "Abcdef12" =
        (.ok { success := true
               message := "登入成功"
               user_id := some (pyStrip "u1")
               user_name := none
               roles := some ["ADMIN"] },
         dbUpdateUser ⟨[⟨"u1", hash_password "Abcdef12", true, none, 4, none, none, none, none⟩],
             [⟨"u1", "ADMIN", none⟩], [], [], none⟩ (pyStrip "u1") fun x =>
           { x with login_fail_count := 0, locked_until := none, last_login_at := some 50 })) := by
  have hv : verify_password "Abcdef12" (hash_password "Abcdef12") = true := by
    simp [verify_password]
  have h := login_success_reset
    ⟨[⟨"u1", hash_password "Abcdef12", true, none, 4, none, none, none, none⟩],
      [⟨"u1", "ADMIN", none⟩], [], [], none⟩ 50 "2026-01-01" "u1" "Abcdef12"
    ⟨"u1", hash_password "Abcdef12", true, none, 4, none, none, none, none⟩
    (by simp [dbFindUser, pyStrip]) (by decide) (by decide) (by decide) hv
  refine ⟨hv, ?_⟩
  rw [h.1]
  rfl

/-- **C8.** For an authenticated change-password request whose old password
verifies and whose new password satisfies the policy, the request is
rejected — leaving both the stored hash and the history untouched — exactly
when the new password verifies against one of the most recent
`password_history_count` history hashes; otherwise the stored hash is
replaced and exactly one history entry carrying the new hash is
appended. -/
theorem change_password_history_rule (db : Db) (now : Nat) (cu : CurrentUser)
    (oldp newp : String) (u : SysUser)
    (hfind : dbFindUser db cu.user_id = some u)
    (hold : verify_password oldp u.password_hash = true)
    (hvalid : (validate_password_strength newp (get_password_policy db.policy)).1 = true) :
    ((recentHistoryHashes db cu.user_id
        (get_password_policy db.policy).password_history_count).any
        (fun h => verify_password newp h) = true →
      change_password db now cu oldp newp =
        (.httpError 400 ("新密碼不可與前 "
            ++ toString (get_password_policy db.policy).password_history_count
            ++ " 次使用的密碼相同"), db))
    ∧ ((recentHistoryHashes db cu.user_id
        (get_password_policy db.policy).password_history_count).any
        (fun h => verify_password newp h) = false →
      change_password db now cu oldp newp =
        (.ok "密碼變更成功",
         { dbUpdateUser db cu.user_id (fun x =>
             { x with password_hash := hash_password newp
                      password_changed_at := some now
                      updated_at := some now }) with
           history := db.history ++ [{ user_id := cu.user_id
                                       password_hash := hash_password newp
                                       created_at := now }] })) :=
  ⟨fun hany => change_password_reject_eq db now cu oldp newp u hfind hold hvalid hany,
   fun hany => change_password_success_eq db now cu oldp newp u hfind hold hvalid hany⟩

/-- Concrete instantiation of `change_password_history_rule`: with the new
password's hash in the recent history the change is rejected and the store
is untouched; with an empty history it succeeds and appends one entry. -/
theorem change_password_history_rule_witness :
    (verify_password "Oldpass1" (hash_password "Oldpass1") = true
      ∧ (validate_password_strength "Newpass1" (get_password_policy none)).1 = true
      ∧ ((recentHistoryHashes
            ⟨[⟨"u1", hash_password "Oldpass1", true, none, 0, none, none, none, none⟩], [],
              [⟨"u1", hash_password "Newpass1", 10⟩], [], none⟩ "u1" 3).any
          fun h => verify_password "Newpass1" h) = true
      ∧ change_password
          ⟨[⟨"u1", hash_password "Oldpass1", true, none, 0, none, none, none, none⟩], [],
            [⟨"u1", hash_password "Newpass1", 10⟩], [], none⟩ 20 ⟨"u1", []⟩
          "Oldpass1" "Newpass1" =
        (.httpError 400 ("新密碼不可與前 " ++ toString (3 : Nat) ++ " 次使用的密碼相同"),
         ⟨[⟨"u1", hash_password "Oldpass1", true, none, 0, none, none, none, none⟩], [],
           [⟨"u1", hash_password "Newpass1", 10⟩], [], none⟩))
    ∧ (((recentHistoryHashes
            ⟨[⟨"u1", hash_password "Oldpass1", true, none, 0, none, none, none, none⟩], [],
              [], [], none⟩ "u1" 3).any fun h => verify_password "Newpass1" h) = false
      ∧ change_password
          ⟨[⟨"u1", hash_password "Oldpass1", true, none, 0, none, none, none, none⟩], [],
            [], [], none⟩ 20 ⟨"u1", []⟩ "Oldpass1" "Newpass1" =
        (.ok "密碼變更成功",
         { dbUpdateUser
             ⟨[⟨"u1", hash_password "Oldpass1", true, none, 0, none, none, none, none⟩], [],
               [], [], none⟩ "u1" (fun x =>
             { x with password_hash := hash_password "Newpass1"
                      password_changed_at := some 20
                      updated_at := some 20 }) with
           history := [] ++ [{ user_id := "u1"
                               password_hash := hash_password "Newpass1"
                               created_at := 20 }] })) := by
  have hold : verify_password "Oldpass1" (hash_password "Oldpass1") = true := by
    simp [verify_password]
  have hrecA : recentHistoryHashes
      ⟨[⟨"u1", hash_password "Oldpass1", true, none, 0, none, none, none, none⟩], [],
        [⟨"u1", hash_password "Newpass1", 10⟩], [], none⟩ "u1" 3 =
      [hash_password "Newpass1"] := rfl
  have hanyA : ((recentHistoryHashes
      ⟨[⟨"u1", hash_password "Oldpass1", true, none, 0, none, none, none, none⟩], [],
        [⟨"u1", hash_password "Newpass1", 10⟩], [], none⟩ "u1" 3).any
      fun h => verify_password "Newpass1" h) = true := by
    rw [hrecA]
    simp [verify_password]
  refine ⟨⟨hold, by decide, hanyA, ?_⟩, ⟨rfl, ?_⟩⟩
  · exact (change_password_history_rule
      ⟨[⟨"u1", hash_password "Oldpass1", true, none, 0, none, none, none, none⟩], [],
        [⟨"u1", hash_password "Newpass1", 10⟩], [], none⟩ 20 ⟨"u1", []⟩
      "Oldpass1" "Newpass1"
      ⟨"u1", hash_password "Oldpass1", true, none, 0, none, none, none, none⟩
      rfl hold (by decide)).1 hanyA
  · exact (change_password_history_rule
      ⟨[⟨"u1", hash_password "Oldpass1", true, none, 0, none, none, none, none⟩], [],
        [], [], none⟩ 20 ⟨"u1", []⟩ "Oldpass1" "Newpass1"
      ⟨"u1", hash_password "Oldpass1", true, none, 0, none, none, none, none⟩
      rfl hold (by decide)).2 rfl

/-- **C10.** A successful self-service password change touches only
`password_hash`, `password_changed_at` and `updated_at` (appending exactly
one history entry), and the administrative `update_user` never modifies
`login_fail_count` or `locked_until` for any request body — in particular a
pure password reset changes only the same three fields plus the history —
so a locked account stays locked and keeps its failure count. -/
theorem password_change_preserves_lockout (db : Db) (now : Nat) (cu : CurrentUser)
    (oldp newp : String) (u : SysUser) (admin : CurrentUser) (uid : String)
    (body : UserUpdateRequest) (pw : String)
    (hfind : dbFindUser db cu.user_id = some u)
    (hold : verify_password oldp u.password_hash = true)
    (hvalid : (validate_password_strength newp (get_password_policy db.policy)).1 = true)
    (hany : (recentHistoryHashes db cu.user_id
        (get_password_policy db.policy).password_history_count).any
        (fun h => verify_password newp h) = false) :
    ((change_password db now cu oldp newp).2.users =
        db.users.map (fun x => if x.user_id == cu.user_id then
          { x with password_hash := hash_password newp
                   password_changed_at := some now
                   updated_at := some now } else x)
      ∧ (change_password db now cu oldp newp).2.history =
          db.history ++ [{ user_id := cu.user_id
                           password_hash := hash_password newp
                           created_at := now }]
      ∧ ((change_password db now cu oldp newp).2.users.map
            fun x => (x.login_fail_count, x.locked_until))
          = db.users.map fun x => (x.login_fail_count, x.locked_until))
    ∧ (((update_user db now admin uid body).2.users.map
          fun x => (x.login_fail_count, x.locked_until))
        = db.users.map fun x => (x.login_fail_count, x.locked_until))
    ∧ (∀ w : SysUser, dbFindUser db uid = some w → pw ≠ "" →
        update_user db now admin uid ⟨none, none, none, some pw⟩ =
          (.ok "使用者更新成功",
           { db with
              users := db.users.map (fun x => if x.user_id == uid then
                { x with password_hash := hash_password pw
                         password_changed_at := some now
                         updated_at := some now } else x)
              history := db.history ++ [{ user_id := uid
                                          password_hash := hash_password pw
                                          created_at := now }] })) := by
  have hsucc := change_password_success_eq db now cu oldp newp u hfind hold hvalid hany
  refine ⟨⟨?_, ?_, ?_⟩, update_user_users_frame db now admin uid body, ?_⟩
  · rw [hsucc]
    rfl
  · rw [hsucc]
  · rw [hsucc]
    exact map_proj_update cu.user_id
      (fun x => { x with password_hash := hash_password newp
                         password_changed_at := some now
                         updated_at := some now })
      (fun x => rfl) db.users
  · intro w hfw hpwne
    have h0 : (pw == "") = false := beq_eq_false_iff_ne.mpr hpwne
    simp [update_user, hfw, h0, dbUpdateUser]

/-- Concrete instantiation of `password_change_preserves_lockout`: on a
locked account with two failures, both a password change and an
administrative reset keep `login_fail_count = 2` and
`locked_until = some 999`. -/
theorem password_change_preserves_lockout_witness :
    (dbFindUser ⟨[⟨"u1", hash_password "Oldpass1", true, none, 2, some 999, none, none, none⟩],
        [], [], [], none⟩ "u1" =
      some ⟨"u1", hash_password "Oldpass1", true, none, 2, some 999, none, none, none⟩
     ∧ verify_password "Oldpass1" (hash_password "Oldpass1") = true
     ∧ (validate_password_strength "Newpass1" (get_password_policy none)).1 = true
     ∧ ((recentHistoryHashes ⟨[⟨"u1", hash_password "Oldpass1", true, none, 2, some 999,
          none, none, none⟩], [], [], [], none⟩ "u1" 3).any
          fun h => verify_password "Newpass1" h) = false
     ∧ "Resetpw1" ≠ "")
    ∧ ((change_password ⟨[⟨"u1", hash_password "Oldpass1", true, none, 2, some 999, none,
          none, none⟩], [], [], [], none⟩ 20 ⟨"u1", []⟩ "Oldpass1" "Newpass1").2.users.map
          fun x => (x.login_fail_count, x.locked_until)) = [(2, some 999)]
    ∧ ((update_user ⟨[⟨"u1", hash_password "Oldpass1", true, none, 2, some 999, none,
          none, none⟩], [], [], [], none⟩ 20 ⟨"adm", ["ADMIN"]⟩ "u1"
          ⟨none, none, none, some "Resetpw1"⟩).2.users.map
          fun x => (x.login_fail_count, x.locked_until)) = [(2, some 999)] := by
  have h := password_change_preserves_lockout
    ⟨[⟨"u1", hash_password "Oldpass1", true, none, 2, some 999, none, none, none⟩],
      [], [], [], none⟩ 20 ⟨"u1", []⟩ "Oldpass1" "Newpass1"
    ⟨"u1", hash_password "Oldpass1", true, none, 2, some 999, none, none, none⟩
    ⟨"adm", ["ADMIN"]⟩ "u1" ⟨none, none, none, some "Resetpw1"⟩ "Resetpw1"
    rfl (by simp [verify_password]) (by decide) rfl
  refine ⟨⟨rfl, by simp [verify_password], by decide, rfl, by decide⟩, ?_, ?_⟩
  · rw [h.1.2.2]
    rfl
  · rw [h.2.1]
    rfl

/-! ## C6: the hasher round-trip and the limits of digest distinctness -/

theorem sha512Compress_mem_lt (st b : List Nat) :
    ∀ x ∈ sha512Compress st b, x < 2 ^ 64 := by
  intro x hx
  unfold sha512Compress at hx
  simp only [List.mem_map] at hx
  obtain ⟨p, _, rfl⟩ := hx
  exact Nat.mod_lt _ (by norm_num)

theorem sha512H0_mem_lt : ∀ x ∈ sha512H0, x < 2 ^ 64 := by
  intro x hx
  simp only [sha512H0, List.mem_map] at hx
  obtain ⟨p, _, rfl⟩ := hx
  exact Nat.mod_lt _ (by norm_num)

theorem foldlCompress_mem_lt (bs : List (List Nat)) (st : List Nat)
    (hst : ∀ x ∈ st, x < 2 ^ 64) :
    ∀ x ∈ bs.foldl sha512Compress st, x < 2 ^ 64 := by
  induction bs generalizing st with
  | nil => exact hst
  | cons b bs ih =>
    rw [List.foldl_cons]
    exact ih _ (sha512Compress_mem_lt st b)

theorem sha512Words_mem_lt (msg : List Nat) :
    ∀ x ∈ sha512Words msg, x < 2 ^ 64 :=
  foldlCompress_mem_lt _ _ sha512H0_mem_lt

theorem packWords_lt : ∀ ws : List Nat, (∀ x ∈ ws, x < 2 ^ 64) →
    packWords ws < 2 ^ (64 * ws.length) := by
  intro ws
  induction ws with
  | nil =>
    intro _
    simp [packWords]
  | cons w ws ih =>
    intro h
    have hw : w < 2 ^ 64 := h w (by simp)
    have ht : packWords ws < 2 ^ (64 * ws.length) := ih fun x hx => h x (by simp [hx])
    have step : packWords (w :: ws) < 2 ^ 64 * (1 + packWords ws) := by
      have : packWords (w :: ws) = w + 2 ^ 64 * packWords ws := rfl
      rw [this]
      have h1 : 2 ^ 64 * (1 + packWords ws) = 2 ^ 64 + 2 ^ 64 * packWords ws := by ring
      omega
    have step2 : 2 ^ 64 * (1 + packWords ws) ≤ 2 ^ 64 * 2 ^ (64 * ws.length) :=
      Nat.mul_le_mul_left _ (by omega)
    have step3 : 2 ^ 64 * 2 ^ (64 * ws.length) = 2 ^ (64 * (ws.length + 1)) := by
      rw [← Nat.pow_add]
      ring_nf
    calc packWords (w :: ws) < 2 ^ 64 * (1 + packWords ws) := step
      _ ≤ 2 ^ 64 * 2 ^ (64 * ws.length) := step2
      _ = 2 ^ (64 * (ws.length + 1)) := step3
      _ = 2 ^ (64 * (w :: ws).length) := by simp

theorem packWords_inj : ∀ ws ws' : List Nat, ws.length = ws'.length →
    (∀ x ∈ ws, x < 2 ^ 64) → (∀ x ∈ ws', x < 2 ^ 64) →
    packWords ws = packWords ws' → ws = ws' := by
  intro ws
  induction ws with
  | nil =>
    intro ws' hlen _ _ _
    cases ws' with
    | nil => rfl
    | cons w' t => simp at hlen
  | cons w ws ih =>
    intro ws' hlen hb hb' heq
    cases ws' with
    | nil => simp at hlen
    | cons w' ws'' =>
      have hw : w < 2 ^ 64 := hb w (by simp)
      have hw' : w' < 2 ^ 64 := hb' w' (by simp)
      have heq' : w + 2 ^ 64 * packWords ws = w' + 2 ^ 64 * packWords ws'' := heq
      have hww : w = w' := by
        have h1 := congrArg (· % 2 ^ 64) heq'
        simp only [Nat.add_mul_mod_self_left] at h1
        rw [Nat.mod_eq_of_lt hw, Nat.mod_eq_of_lt hw'] at h1
        exact h1
      have hrest : packWords ws = packWords ws'' := by
        have h2 : 2 ^ 64 * packWords ws = 2 ^ 64 * packWords ws'' := by omega
        exact Nat.eq_of_mul_eq_mul_left (by norm_num) h2
      rw [hww, ih ws'' (by simpa using hlen) (fun x hx => hb x (by simp [hx]))
        (fun x hx => hb' x (by simp [hx])) hrest]

/-- SHA-512 maps unboundedly many salted passwords onto eight 64-bit words,
so two distinct passwords share a digest (infinite pigeonhole; the witness
is necessarily non-constructive). -/
theorem hash_password_collision :
    ∃ p q : String, p ≠ q ∧ hash_password p = hash_password q := by
  have hbound : ∀ p : String,
      packWords (sha512Words (utf8Encode (PASSWORD_SALT ++ p ++ PASSWORD_SALT)))
        < 2 ^ 512 := by
    intro p
    have h := packWords_lt _ (sha512Words_mem_lt
      (utf8Encode (PASSWORD_SALT ++ p ++ PASSWORD_SALT)))
    rw [sha512Words_length] at h
    simpa using h
  obtain ⟨p, q, hne, hfeq⟩ := Finite.exists_ne_map_eq_of_infinite
    (fun p : String =>
      (⟨packWords (sha512Words (utf8Encode (PASSWORD_SALT ++ p ++ PASSWORD_SALT))),
        hbound p⟩ : Fin (2 ^ 512)))
  refine ⟨p, q, hne, ?_⟩
  have hpack : packWords (sha512Words (utf8Encode (PASSWORD_SALT ++ p ++ PASSWORD_SALT)))
      = packWords (sha512Words (utf8Encode (PASSWORD_SALT ++ q ++ PASSWORD_SALT))) :=
    congrArg Fin.val hfeq
  have hwords := packWords_inj _ _
    (by rw [sha512Words_length, sha512Words_length])
    (sha512Words_mem_lt _) (sha512Words_mem_lt _) hpack
  unfold hash_password
  rw [hwords]

/-- **C6 (counterexample).** The claim that `verify(p', hash(p))` is false
for every pair of distinct passwords fails: the digest space is finite
while passwords are not, so some distinct pair verifies. -/
theorem verify_distinct_claim_false :
    ¬ ∀ p q : String, p ≠ q → verify_password q (hash_password p) = false := by
  intro hclaim
  obtain ⟨p, q, hne, heq⟩ := hash_password_collision
  have hfalse := hclaim p q hne
  have htrue : verify_password q (hash_password p) = true := by
    unfold verify_password
    rw [heq]
    exact beq_self_eq_true _
  rw [htrue] at hfalse
  exact Bool.noConfusion hfalse

/-- **C6 (amended).** `verify(p, hash(p))` is true for every password, and
`verify(p', hash(p))` is true exactly when the two digests coincide — so it
is false for every pair with distinct digests, which is the most the
fixed-width digest allows. -/
theorem verify_hash_roundtrip_amended :
    (∀ p : String, verify_password p (hash_password p) = true)
    ∧ (∀ p q : String,
        verify_password q (hash_password p) = true ↔
          hash_password q = hash_password p) := by
  constructor
  · intro p
    simp [verify_password]
  · intro p q
    simp [verify_password]

end SectionBuilder
